import Mathlib

/-!
Verification of the Contentful helper module of the seo-pilot-site repository
(`scripts/contentful-helpers.js`).  JavaScript values are modelled by the
inductive type `JsVal` (strings as `List Char`, objects as insertion-ordered
association lists); each helper of the source module is translated into a
Lean function over this model, and the behavioural claims about the module
are proved as theorems about those functions.
-/

set_option maxHeartbeats 1600000
set_option maxRecDepth 100000

/-- JavaScript strings, modelled as lists of characters. -/
abbrev JStr := List Char

/-- Model of a JavaScript value.  Plain objects are insertion-ordered
association lists (`Object.values`/`Object.keys` enumerate in that order);
numbers are modelled as integers (no NaN/float corner cases are exercised
by the module under verification). -/
inductive JsVal where
  | undefined : JsVal
  | null : JsVal
  | bool (b : Bool) : JsVal
  | num (n : Int) : JsVal
  | str (s : JStr) : JsVal
  | arr (elems : List JsVal) : JsVal
  | obj (fields : List (String × JsVal)) : JsVal

/-- JavaScript truthiness of a value. -/
def jsTruthy : JsVal → Bool
  | .undefined => false
  | .null => false
  | .bool b => b
  | .num n => n ≠ 0
  | .str s => !s.isEmpty
  | .arr _ => true
  | .obj _ => true

/-- The JavaScript `a || b` operator: `a` if truthy, else `b`. -/
def jsOr (a b : JsVal) : JsVal := if jsTruthy a then a else b

/-- The JavaScript `a && b` operator: `b` if `a` is truthy, else `a`. -/
def jsAnd (a b : JsVal) : JsVal := if jsTruthy a then b else a

/-- Property access `v.k` (equivalently the optional chain `v?.k`): the
value stored under key `k` of a plain object, `undefined` otherwise.
(JavaScript would throw on `null.k`/`undefined.k`; the source only uses
plain access behind guards or the `?.` operator, which this models.) -/
def getProp (v : JsVal) (k : String) : JsVal :=
  match v with
  | .obj fs => match fs.lookup k with
    | some w => w
    | none => .undefined
  | _ => .undefined

/-- Strict equality `===`.  Objects and arrays compare by reference in
JavaScript; distinct object literals are never `===`, which we model by
returning `false` on structured values (the source only compares
identifier strings with `===`). -/
def jsStrictEq : JsVal → JsVal → Bool
  | .str a, .str b => a = b
  | .num a, .num b => a = b
  | .bool a, .bool b => a = b
  | .null, .null => true
  | .undefined, .undefined => true
  | _, _ => false

mutual
/-- JavaScript `String(v)` coercion. -/
def jsToString : JsVal → JStr
  | .undefined => ("undefined").toList
  | .null => ("null").toList
  | .bool true => ("true").toList
  | .bool false => ("false").toList
  | .num n => (toString n).toList
  | .str s => s
  | .arr l => jsToStringList l
  | .obj _ => ("[object Object]").toList

/-- `Array.prototype.toString`: elements joined by commas, with `null` and
`undefined` elements contributing the empty string. -/
def jsToStringList : List JsVal → JStr
  | [] => []
  | x :: xs =>
    (match x with
      | .null => []
      | .undefined => []
      | v => jsToString v) ++
    (match xs with
      | [] => []
      | _ => ',' :: jsToStringList xs)
end

/-- `unwrap` from `scripts/contentful-helpers.js` (lines 9-16): `null` and
`undefined` become `undefined`; a plain object (not an array) is collapsed
to its first enumerated value, with a `null`/`undefined` first value (or an
empty object) giving `undefined`; everything else passes through. -/
def unwrap (x : JsVal) : JsVal :=
  match x with
  | .null => .undefined
  | .undefined => .undefined
  | .obj fs =>
    match fs with
    | [] => .undefined
    | (_, v) :: _ =>
      match v with
      | .null => .undefined
      | .undefined => .undefined
      | w => w
  | y => y

/-- Replace every occurrence of the character `c` by the string `rep`
(the effect of `String.prototype.replace` with a global single-character
regular expression). -/
def replaceChar (c : Char) (rep : JStr) : JStr → JStr
  | [] => []
  | a :: as => (if a = c then rep else [a]) ++ replaceChar c rep as

/-- The replacement chain of `escapeHtml` (lines 124-128): global
replacements of `&`, `<`, `>`, `"`, applied in that order. -/
def escHtmlRun (s : JStr) : JStr :=
  replaceChar '"' (("&quot;").toList)
    (replaceChar '>' (("&gt;").toList)
      (replaceChar '<' (("&lt;").toList)
        (replaceChar '&' (("&amp;").toList) s)))

/-- The replacement chain of `escapeAttr` (lines 133-136): global
replacements of `&`, `"`, `'`, applied in that order. -/
def escAttrRun (s : JStr) : JStr :=
  replaceChar '\'' (("&#39;").toList)
    (replaceChar '"' (("&quot;").toList)
      (replaceChar '&' (("&amp;").toList) s))

/-- `escapeHtml` (lines 122-129): `''` for `null`/`undefined`, otherwise the
stringified value with `&`, `<`, `>`, `"` replaced by entities. -/
def escapeHtml (s : JsVal) : JStr :=
  match s with
  | .null => []
  | .undefined => []
  | v => escHtmlRun (jsToString v)

/-- `escapeAttr` (lines 131-137): `''` for `null`/`undefined`, otherwise the
stringified value with `&`, `"`, `'` replaced by entities. -/
def escapeAttr (s : JsVal) : JStr :=
  match s with
  | .null => []
  | .undefined => []
  | v => escAttrRun (jsToString v)

/-- The search predicate of `resolveEntry`/`resolveAsset`:
`e.sys && e.sys.id === id` (lines 22 and 27). -/
def entMatches (id : JsVal) (e : JsVal) : Bool :=
  jsTruthy (getProp e ("sys")) &&
  jsStrictEq (getProp (getProp e ("sys")) ("id")) id

/-- `resolveEntry` (lines 18-23): entity lookup by `sys.id`, searching first
the `items` pool (if it is an array) and then `includes.Entry`; `null` when
nothing matches.  (Spreading a truthy non-array `includes.Entry` would throw
in JavaScript; it is modelled as the empty pool.) -/
def resolveEntry (id includes items : JsVal) : JsVal :=
  let fromItems : List JsVal := match items with
    | .arr l => l
    | _ => []
  let fromIncludes : List JsVal :=
    match jsOr (jsAnd includes (getProp includes ("Entry"))) (.arr []) with
    | .arr l => l
    | _ => []
  let list := fromItems ++ fromIncludes
  jsOr
    (match list.find? (entMatches id) with
      | some e => e
      | none => .undefined)
    (.null)

/-- `resolveAsset` (lines 25-28): the analogous single-pool lookup over
`includes.Asset`. -/
def resolveAsset (id includes : JsVal) : JsVal :=
  let list : List JsVal :=
    match jsOr (jsAnd includes (getProp includes ("Asset"))) (.arr []) with
    | .arr l => l
    | _ => []
  jsOr
    (match list.find? (entMatches id) with
      | some a => a
      | none => .undefined)
    (.null)

/-- `assetUrl` (lines 30-35): extract the file URL of an asset, prefixing
`https:` when it is protocol-relative; `''` when absent.  (A truthy
non-string URL would throw on `.startsWith` in JavaScript; modelled as
`''`.) -/
def assetUrl (asset : JsVal) : JStr :=
  if !(jsTruthy asset) then []
  else if !(jsTruthy (getProp asset ("fields"))) then []
  else if !(jsTruthy (getProp (getProp asset ("fields")) ("file"))) then []
  else
    let file := unwrap (getProp (getProp asset ("fields")) ("file"))
    let url := jsAnd file (getProp file ("url"))
    if jsTruthy url then
      match url with
      | .str s => if (("//").toList).isPrefixOf s then ("https:").toList ++ s else s
      | _ => []
    else []

/-- `resolveEmbeddedEntry` (lines 38-47): a node's `data.target` is returned
directly when pre-resolved (it has `fields`), otherwise its `sys.id` link is
resolved from the pools; `null` when the target or its id is missing. -/
def resolveEmbeddedEntry (node includes items : JsVal) : JsVal :=
  let target := getProp (getProp node ("data")) ("target")
  if !(jsTruthy target) then .null
  else if jsTruthy (getProp target ("fields")) then target
  else
    let id := getProp (getProp target ("sys")) ("id")
    if !(jsTruthy id) then .null
    else resolveEntry id includes items

/-- Lower-casing of a JavaScript string (`String.prototype.toLowerCase`). -/
def lowerJ (s : JStr) : JStr := s.map Char.toLower

/-- The effect of `.replace(/\s+/g, '-')`: each maximal whitespace run
becomes a single dash. -/
def collapseWs : JStr → JStr
  | [] => []
  | c :: cs =>
    if c.isWhitespace then '-' :: collapseWs (cs.dropWhile Char.isWhitespace)
    else c :: collapseWs cs
termination_by s => s.length
decreasing_by
  · exact Nat.lt_succ_of_le ((List.dropWhile_suffix _).sublist.length_le)
  · exact Nat.lt_succ_of_le (Nat.le_refl _)

/-- `blockTypeClass` (lines 139-144): normalize a block-style tag to one of
the whitelisted CSS classes, defaulting to `text`. -/
def blockTypeClass (blockType : JsVal) : JStr :=
  if !(jsTruthy blockType) then ("text").toList
  else match blockType with
    | .str s =>
      let t := collapseWs (lowerJ s)
      if t ∈ [("text").toList, ("image").toList, ("quote").toList,
              ("list").toList, ("code").toList, ("cta").toList] then t
      else ("text").toList
    | _ => ("text").toList

/-- The two content-type environment overrides read by
`renderEmbeddedEntry` (`CONTENTFUL_RICH_CONTENT_BLOCK_TYPE` and
`CONTENTFUL_CTA_BLOCK_TYPE`). -/
structure Env where
  richContentBlockType : Option JStr := none
  ctaBlockType : Option JStr := none

/-- `process.env.X || 'default'`: an unset or empty environment variable
falls back to the default. -/
def envOr (v : Option JStr) (d : JStr) : JStr :=
  match v with
  | some s => if s.isEmpty then d else s
  | none => d

/-- The configured rich-content-block type identifier, lower-cased
(line 53). -/
def blockTypeIdOf (env : Env) : JStr :=
  lowerJ (envOr env.richContentBlockType (("richContentBlock").toList))

/-- The configured CTA-block type identifier, lower-cased (line 54). -/
def ctaTypeIdOf (env : Env) : JStr :=
  lowerJ (envOr env.ctaBlockType (("ctaBlock").toList))

/-- The declared content-type tag of an entry before lower-casing
(line 52): `entry.sys?.contentType?.sys?.id || entry.sys?.contentType?.id
|| ''`. -/
def ctOf (e : JsVal) : JsVal :=
  jsOr (getProp (getProp (getProp (getProp e ("sys")) ("contentType")) ("sys")) ("id"))
    (jsOr (getProp (getProp (getProp e ("sys")) ("contentType")) ("id")) (.str []))

/-- The lower-cased declared content-type tag of an entry.  (A truthy
non-string tag would throw on `.toLowerCase()` in JavaScript and is outside
the data model; it is modelled as the empty tag.) -/
def ctLower (e : JsVal) : JStr :=
  match ctOf e with
  | .str s => lowerJ s
  | _ => []

/-- CTA heading (line 58): `unwrap(f.heading) || unwrap(f.headline) || ''`. -/
def ctaHeading (f : JsVal) : JsVal :=
  jsOr (unwrap (getProp f ("heading"))) (jsOr (unwrap (getProp f ("headline"))) (.str []))

/-- CTA description (line 59): `unwrap(f.description) || unwrap(f.body) || ''`. -/
def ctaDesc (f : JsVal) : JsVal :=
  jsOr (unwrap (getProp f ("description"))) (jsOr (unwrap (getProp f ("body"))) (.str []))

/-- CTA button label (line 60): the alias chain ending in the literal
`'Learn more'` default. -/
def ctaBtn (f : JsVal) : JsVal :=
  jsOr (unwrap (getProp f ("buttonText")))
    (jsOr (unwrap (getProp f ("button_label")))
      (jsOr (unwrap (getProp f ("ctaText"))) (.str (("Learn more").toList))))

/-- CTA button URL (line 61): the alias chain ending in the literal `'#'`
default. -/
def ctaUrl (f : JsVal) : JsVal :=
  jsOr (unwrap (getProp f ("buttonUrl")))
    (jsOr (unwrap (getProp f ("button_url")))
      (jsOr (unwrap (getProp f ("ctaUrl")))
        (jsOr (unwrap (getProp f ("link"))) (.str (("#").toList)))))

/-- The accumulated CTA fragment body `h` of lines 62-65. -/
def ctaBody (f : JsVal) : JStr :=
  (if jsTruthy (ctaHeading f) then
      ("<h3 class=\"cta-block-heading\">").toList ++ escapeHtml (ctaHeading f) ++ ("</h3>").toList
    else []) ++
  (if jsTruthy (ctaDesc f) then
      ("<p class=\"cta-block-desc\">").toList ++ escapeHtml (ctaDesc f) ++ ("</p>").toList
    else []) ++
  (if jsTruthy (ctaUrl f) && jsTruthy (ctaBtn f) then
      ("<a href=\"").toList ++ escapeAttr (ctaUrl f) ++ ("\" class=\"cta-btn\">").toList ++
        escapeHtml (ctaBtn f) ++ ("</a>").toList
    else [])

/-- The CTA branch of `renderEmbeddedEntry` (lines 56-67). -/
def renderCtaBlock (f : JsVal) : JStr :=
  if ctaBody f ≠ [] then
    ("<div class=\"content-block content-block--cta\">").toList ++ ctaBody f ++ ("</div>").toList
  else []

/-- The type of the mutual-recursion reference `richTextToHtmlRef`:
`(doc, includes, items) ↦ html`. -/
abbrev RTRef := JsVal → JsVal → JsVal → JStr

/-- `rich && rich.content && Array.isArray(rich.content) &&
rich.content.length` (line 77). -/
def hasRichContent (rich : JsVal) : Bool :=
  jsTruthy rich &&
  jsTruthy (getProp rich ("content")) &&
  (match getProp rich ("content") with
    | .arr (_ :: _) => true
    | _ => false)

/-- The rich-content-block branch of `renderEmbeddedEntry` (lines 68-88). -/
def renderRichContentBlock (f includes items : JsVal) (richTextToHtmlRef : RTRef) : JStr :=
  let rich := jsOr (unwrap (getProp f ("richText")))
    (jsOr (unwrap (getProp f ("rich_text")))
      (jsOr (unwrap (getProp f ("body"))) (unwrap (getProp f ("content")))))
  let img := unwrap (getProp f ("image"))
  let cap := jsOr (unwrap (getProp f ("caption"))) (.str [])
  let fullWidth := jsOr (unwrap (getProp f ("fullWidth"))) (unwrap (getProp f ("full_width")))
  let blockType := jsOr (unwrap (getProp f ("blockType"))) (unwrap (getProp f ("block_type")))
  let typeClass := blockTypeClass blockType
  let html0 := if hasRichContent rich then richTextToHtmlRef rich includes items else []
  let html :=
    html0 ++
    (if jsTruthy img && jsTruthy (getProp img ("sys")) &&
        jsTruthy (getProp (getProp img ("sys")) ("id")) then
      let a := resolveAsset (getProp (getProp img ("sys")) ("id")) includes
      let u := assetUrl a
      if u ≠ [] then
        ("<figure class=\"content-block-figure\"><img src=\"").toList ++ u ++
          ("\" alt=\"").toList ++ escapeAttr cap ++ ("\" loading=\"lazy\" />").toList ++
          (if jsTruthy cap then
              ("<figcaption>").toList ++ escapeHtml cap ++ ("</figcaption>").toList
            else []) ++
          ("</figure>").toList
      else []
    else [])
  let base := ("content-block content-block--").toList ++ typeClass
  let full := if jsTruthy fullWidth then (" content-block--full").toList else []
  if html ≠ [] then
    ("<div class=\"").toList ++ base ++ full ++ ("\">").toList ++ html ++ ("</div>").toList
  else []

/-- `renderEmbeddedEntry` (lines 50-90): classify the resolved entry by its
lower-cased content-type tag and render the CTA branch, the rich-content
branch, or the empty string. -/
def renderEmbeddedEntry (env : Env) (entry includes items : JsVal)
    (richTextToHtmlRef : RTRef) : JStr :=
  if !(jsTruthy entry) then []
  else if !(jsTruthy (getProp entry ("fields"))) then []
  else
    let ct := ctLower entry
    let f := getProp entry ("fields")
    if ct = ctaTypeIdOf env then renderCtaBlock f
    else if ct = blockTypeIdOf env then renderRichContentBlock f includes items richTextToHtmlRef
    else []

/-- The `renderNode` overrides built by `richTextToHtml` (lines 99-114),
keyed by the three node types `BLOCKS.EMBEDDED_ASSET`,
`BLOCKS.EMBEDDED_ENTRY` and `INLINES.EMBEDDED_ENTRY`. -/
structure RenderOptions where
  embeddedAssetBlock : JsVal → JStr
  embeddedEntryBlock : JsVal → JStr
  embeddedEntryInline : JsVal → JStr

/-- The options value constructed inside `richTextToHtml` (lines 94-114):
embedded entries (block and inline alike) resolve the node and delegate to
`renderEmbeddedEntry` with `richTextToHtml` itself (`self`) as the
recursion reference; embedded assets render an `<img>` when their URL
resolves. -/
def mkRenderOptions (env : Env) (includes items : JsVal) (self : RTRef) : RenderOptions where
  embeddedAssetBlock := fun node =>
    let id := getProp (getProp (getProp (getProp node ("data")) ("target")) ("sys")) ("id")
    let asset := resolveAsset id includes
    let url := assetUrl asset
    let title := jsOr (unwrap (getProp (getProp asset ("fields")) ("title"))) (.str [])
    if url ≠ [] then
      ("<img src=\"").toList ++ url ++ ("\" alt=\"").toList ++ escapeAttr title ++
        ("\" loading=\"lazy\" />").toList
    else []
  embeddedEntryBlock := fun node =>
    renderEmbeddedEntry env (resolveEmbeddedEntry node includes items) includes items self
  embeddedEntryInline := fun node =>
    renderEmbeddedEntry env (resolveEmbeddedEntry node includes items) includes items self

/-- The external `documentToHtmlString` collaborator, which may throw
(modelled as `Except.error`). -/
abbrev ExtRenderer := JsVal → RenderOptions → Except Unit JStr

/-- `richTextToHtml` (lines 92-120), parameterized by the external
`documentToHtmlString` collaborator `ext` and by the function `self` passed
down as the mutual-recursion reference: guard against a missing document or
content, then render, turning any thrown error into `''`. -/
def richTextToHtmlF (ext : ExtRenderer) (env : Env) (self : RTRef)
    (doc includes items : JsVal) : JStr :=
  if !(jsTruthy doc) then []
  else if !(jsTruthy (getProp doc ("content"))) then []
  else
    match ext doc (mkRenderOptions env includes items self) with
    | .ok s => s
    | .error _ => []

/-- Modelled from the spec: the external rich-text-to-HTML collaborator
(`documentToHtmlString` of `@contentful/rich-text-html-renderer`, §6 of the
spec) is not part of this repository.  Per §3/§4.3 it walks the document's
block nodes in document order, applies the `renderNode` overrides for
embedded-entry and embedded-asset nodes, renders standard nodes itself
(modelled here for paragraphs, with escaped flattened direct text
children), and concatenates the results. -/
def renderNodeModel (opts : RenderOptions) (node : JsVal) : JStr :=
  match getProp node ("nodeType") with
  | .str nt =>
    if nt = ("embedded-entry-block").toList then opts.embeddedEntryBlock node
    else if nt = ("embedded-entry-inline").toList then opts.embeddedEntryInline node
    else if nt = ("embedded-asset-block").toList then opts.embeddedAssetBlock node
    else if nt = ("paragraph").toList then
      ("<p>").toList ++
        (match getProp node ("content") with
          | .arr cs =>
            (cs.map (fun c =>
              match getProp c ("nodeType"), getProp c ("value") with
              | .str cnt, .str v =>
                if cnt = ("text").toList then escapeHtml (.str v) else []
              | _, _ => [])).flatten
          | _ => []) ++
      ("</p>").toList
    else []
  | _ => []

/-- Modelled from the spec: the document-level external renderer — the
per-node renders of the top-level `content` nodes, concatenated in document
order (§3, "traversal order is document order"). -/
def documentToHtmlStringModel (doc : JsVal) (opts : RenderOptions) : JStr :=
  match getProp doc ("content") with
  | .arr ns => (ns.map (renderNodeModel opts)).flatten
  | _ => []

/-- The external renderer model wrapped as a non-throwing `ExtRenderer`. -/
def extModel : ExtRenderer := fun doc opts => .ok (documentToHtmlStringModel doc opts)

/-- A rich-text node as inspected by `extractFaqPairs` (lines 184-230): a
`nodeType` tag, a text `value` (empty when absent — `node.value || ''`),
and child `content` nodes (empty when absent). -/
inductive RNode where
  | mk (nodeType : String) (value : JStr) (content : List RNode)

/-- The `nodeType` of a node. -/
def RNode.nodeType : RNode → String
  | .mk t _ _ => t

mutual
/-- `textFromNode` (lines 191-198): the value of a `text` node, otherwise
the concatenated flattened text of the children. -/
def textFromNode : RNode → JStr
  | .mk t v cs => if t = "text" then v else textFromList cs

/-- Flattened text of a list of nodes, concatenated without separators. -/
def textFromList : List RNode → JStr
  | [] => []
  | n :: ns => textFromNode n ++ textFromList ns
end

/-- A question/answer pair produced by `extractFaqPairs`. -/
structure FaqPair where
  question : JStr
  answer : JStr
deriving DecidableEq, Repr

/-- The scanner state of `extractFaqPairs`: `currentQuestion` (a JavaScript
string or `null`), `currentAnswerParts`, and the emitted `pairs`. -/
structure FaqSt where
  q : Option JStr
  parts : List JStr
  pairs : List FaqPair

/-- The heading node types accepted as FAQ questions (line 186). -/
def headingTypes : List String :=
  ["heading-2", "heading-3", "heading-4", "heading-5", "heading-6"]

/-- `currentAnswerParts.join(' ')`. -/
def joinSp : List JStr → JStr
  | [] => []
  | p :: ps => p ++ (ps.map (fun r => ' ' :: r)).flatten

/-- JavaScript `String.prototype.trim` on both ends. -/
def trimJ (s : JStr) : JStr :=
  ((s.dropWhile Char.isWhitespace).reverse.dropWhile Char.isWhitespace).reverse

/-- `flushPair` (lines 200-209): emit the pending pair when the current
question is truthy (a non-empty string) and at least one answer part
accumulated — the emitted question and the space-joined answer are
trimmed — then reset the question and answer parts. -/
def flushPair (st : FaqSt) : FaqSt :=
  ⟨none, [],
    match st.q with
    | some q =>
      if q ≠ [] ∧ st.parts ≠ [] then
        st.pairs ++ [⟨trimJ q, trimJ (joinSp st.parts)⟩]
      else st.pairs
    | none => st.pairs⟩

/-- One iteration of the `for` loop of lines 211-225: a heading flushes and
opens a new question; a paragraph or list node accumulates its flattened
text when the current question is truthy; other node types are skipped. -/
def faqStep (st : FaqSt) (n : RNode) : FaqSt :=
  if n.nodeType ∈ headingTypes then
    let st' := flushPair st
    ⟨some (textFromNode n), st'.parts, st'.pairs⟩
  else if n.nodeType = "paragraph" ∨ n.nodeType = "unordered-list" ∨
      n.nodeType = "ordered-list" then
    match st.q with
    | some q =>
      if q ≠ [] then ⟨st.q, st.parts ++ [textFromNode n], st.pairs⟩ else st
    | none => st
  else st

/-- `extractFaqPairs` (lines 184-230), taking the document's top-level node
list (`none` models a missing/non-array `doc.content`, which returns `[]`). -/
def extractFaqPairs (doc : Option (List RNode)) : List FaqPair :=
  match doc with
  | none => []
  | some ns => (flushPair (ns.foldl faqStep ⟨none, [], []⟩)).pairs

/-- Wording of claim C4 (spec §3 "FAQ Pair"), as a definition to compare
with the source scanner: a heading opens a pair whose question is exactly
the heading's flattened text; paragraph/list nodes accumulate whenever a
pair is open; a pair is emitted (untrimmed, space-joined) only when its
question is non-empty and at least one answer part accumulated. -/
def flushPairSpec (st : FaqSt) : FaqSt :=
  ⟨none, [],
    match st.q with
    | some q =>
      if q ≠ [] ∧ st.parts ≠ [] then st.pairs ++ [⟨q, joinSp st.parts⟩]
      else st.pairs
    | none => st.pairs⟩

/-- One scan step of the claim's wording (see `flushPairSpec`). -/
def faqStepSpec (st : FaqSt) (n : RNode) : FaqSt :=
  if n.nodeType ∈ headingTypes then
    let st' := flushPairSpec st
    ⟨some (textFromNode n), st'.parts, st'.pairs⟩
  else if n.nodeType = "paragraph" ∨ n.nodeType = "unordered-list" ∨
      n.nodeType = "ordered-list" then
    match st.q with
    | some _ => ⟨st.q, st.parts ++ [textFromNode n], st.pairs⟩
    | none => st
  else st

/-- The FAQ extraction exactly as claim C4 words it. -/
def extractFaqPairsSpec (doc : Option (List RNode)) : List FaqPair :=
  match doc with
  | none => []
  | some ns => (flushPairSpec (ns.foldl faqStepSpec ⟨none, [], []⟩)).pairs

/-- Trimming of an emitted pair, the only difference between the source
scanner and the claim's wording. -/
def trimPair (p : FaqPair) : FaqPair := ⟨trimJ p.question, trimJ p.answer⟩

/-! ## Helper lemmas -/

theorem jsOr_truthy (a b : JsVal) (h : jsTruthy b = true) :
    jsTruthy (jsOr a b) = true := by
  cases ha : jsTruthy a <;> simp [jsOr, ha, h]

theorem replaceChar_append (c : Char) (rep : JStr) (xs ys : JStr) :
    replaceChar c rep (xs ++ ys) = replaceChar c rep xs ++ replaceChar c rep ys := by
  induction xs with
  | nil => rfl
  | cons a as ih => simp [replaceChar, ih, List.append_assoc]

/-! ## Claim C1 -/

/-- A value is `null` or `undefined`. -/
def isNullish : JsVal → Bool
  | .null => true
  | .undefined => true
  | _ => false

/-- A link stub in the sense of claim C1: a plain object carrying a `sys`
key. -/
def isLinkStub : JsVal → Bool
  | .obj fs => (fs.lookup ("sys")).isSome
  | _ => false

/-- A rich-text document in the sense of claim C1: a plain object carrying
`nodeType` and `content` keys. -/
def isRichTextDoc : JsVal → Bool
  | .obj fs => (fs.lookup ("nodeType")).isSome && (fs.lookup ("content")).isSome
  | _ => false

/-- Claim C1, counterexample: a link stub (an object with a `sys` key) and a
rich-text document (an object with `nodeType`/`content` keys) are NOT
returned unchanged by `unwrap` — both are treated as locale-maps and
collapsed to their first value. -/
theorem c1_counterexample :
    isLinkStub (.obj [(("sys"), .obj [(("id"), .str (("a").toList))])]) = true ∧
    unwrap (.obj [(("sys"), .obj [(("id"), .str (("a").toList))])]) ≠
      .obj [(("sys"), .obj [(("id"), .str (("a").toList))])] ∧
    isRichTextDoc (.obj [(("nodeType"), .str (("document").toList)),
      (("content"), .arr []), (("data"), .obj [])]) = true ∧
    unwrap (.obj [(("nodeType"), .str (("document").toList)),
      (("content"), .arr []), (("data"), .obj [])]) ≠
      .obj [(("nodeType"), .str (("document").toList)),
        (("content"), .arr []), (("data"), .obj [])] := by
  refine ⟨rfl, ?_, rfl, ?_⟩ <;> (intro h; simp [unwrap] at h)

/-- Claim C1 (amended): arrays and non-object scalars pass through `unwrap`
unchanged and `null`/missing inputs become `undefined`, but link stubs and
rich-text documents do NOT pass through — every plain object, structural or
not, is collapsed to its first value (with `undefined` for an empty object
or a `null`/`undefined` first value). -/
theorem c1_unwrap_amended (l : List JsVal) (k : String) (v : JsVal)
    (fs : List (String × JsVal)) (b : Bool) (n : Int) (s : JStr) :
    unwrap (.arr l) = .arr l ∧
    unwrap .null = .undefined ∧
    unwrap .undefined = .undefined ∧
    unwrap (.obj []) = .undefined ∧
    unwrap (.obj ((k, v) :: fs)) = (if isNullish v then .undefined else v) ∧
    unwrap (.bool b) = .bool b ∧
    unwrap (.num n) = .num n ∧
    unwrap (.str s) = .str s := by
  refine ⟨rfl, rfl, rfl, rfl, ?_, rfl, rfl, rfl⟩
  cases v <;> simp [unwrap, isNullish]

/-! ## Claim C8 -/

/-- A scalar in the sense of claim C8: not `null`, not an object, not an
array. -/
def isScalar : JsVal → Bool
  | .null => false
  | .obj _ => false
  | .arr _ => false
  | _ => true

/-- Claim C8: `unwrap` is idempotent on scalar values. -/
theorem c8_unwrap_idempotent (v : JsVal) (h : isScalar v = true) :
    unwrap (unwrap v) = unwrap v := by
  cases v <;> simp [isScalar] at h <;> rfl

/-- Witness for claim C8 at the scalar `3`. -/
theorem c8_unwrap_idempotent_witness :
    isScalar (.num 3) = true ∧ unwrap (unwrap (.num 3)) = unwrap (.num 3) :=
  ⟨rfl, c8_unwrap_idempotent (.num 3) rfl⟩

/-! ## Claim C9 -/

/-- Claim C9: `unwrap` never returns `null` — every result is `undefined` or
a non-null value — and a locale-map whose first value is `null` yields
`undefined`, not `null`. -/
theorem c9_unwrap_never_null :
    (∀ v : JsVal, unwrap v ≠ .null) ∧
    (∀ (k : String) (fs : List (String × JsVal)),
      unwrap (.obj ((k, JsVal.null) :: fs)) = .undefined) := by
  constructor
  · intro v
    cases v with
    | obj fs =>
      match fs with
      | [] => simp [unwrap]
      | (k, w) :: rest => cases w <;> simp [unwrap]
    | _ => simp [unwrap]
  · intro k fs
    rfl

/-! ## Claim C3 -/

/-- The per-character effect of `escapeHtml`. -/
def escHtmlChar (c : Char) : JStr :=
  if c = '&' then ("&amp;").toList
  else if c = '<' then ("&lt;").toList
  else if c = '>' then ("&gt;").toList
  else if c = '"' then ("&quot;").toList
  else [c]

/-- The per-character effect of `escapeAttr`. -/
def escAttrChar (c : Char) : JStr :=
  if c = '&' then ("&amp;").toList
  else if c = '"' then ("&quot;").toList
  else if c = '\'' then ("&#39;").toList
  else [c]

theorem escHtmlRun_append (xs ys : JStr) :
    escHtmlRun (xs ++ ys) = escHtmlRun xs ++ escHtmlRun ys := by
  simp [escHtmlRun, replaceChar_append]

theorem escAttrRun_append (xs ys : JStr) :
    escAttrRun (xs ++ ys) = escAttrRun xs ++ escAttrRun ys := by
  simp [escAttrRun, replaceChar_append]

theorem escHtmlRun_single (a : Char) : escHtmlRun [a] = escHtmlChar a := by
  by_cases h1 : a = '&'
  · subst h1; decide
  by_cases h2 : a = '<'
  · subst h2; decide
  by_cases h3 : a = '>'
  · subst h3; decide
  by_cases h4 : a = '"'
  · subst h4; decide
  simp [escHtmlRun, replaceChar, escHtmlChar, h1, h2, h3, h4]

theorem escAttrRun_single (a : Char) : escAttrRun [a] = escAttrChar a := by
  by_cases h1 : a = '&'
  · subst h1; decide
  by_cases h2 : a = '"'
  · subst h2; decide
  by_cases h3 : a = '\''
  · subst h3; decide
  simp [escAttrRun, replaceChar, escAttrChar, h1, h2, h3]

/-- Claim C3, counterexample: `escapeAttr` is NOT a superset of
`escapeHtml` — on the string `<p>` the characters `<` and `>`, which
`escapeHtml` escapes, are left verbatim by `escapeAttr`. -/
theorem c3_counterexample :
    escapeHtml (.str (("<p>").toList)) = ("&lt;p&gt;").toList ∧
    escapeAttr (.str (("<p>").toList)) = ("<p>").toList ∧
    escapeAttr (.str (("<p>").toList)) ≠ escapeHtml (.str (("<p>").toList)) := by
  refine ⟨by decide, by decide, by decide⟩

/-- Claim C3 (amended): the two escapes act per character, with overlapping
but incomparable ranges — `escapeHtml` escapes `&`, `<`, `>`, `"` (leaving
`'` alone) while `escapeAttr` escapes `&`, `"`, `'` (leaving `<` and `>`
alone), so `escapeAttr` additionally escapes single quotes but is not a
superset of `escapeHtml`. -/
theorem c3_escape_per_char (s : JStr) :
    escapeHtml (.str s) = (s.map escHtmlChar).flatten ∧
    escapeAttr (.str s) = (s.map escAttrChar).flatten := by
  constructor
  · show escHtmlRun s = (s.map escHtmlChar).flatten
    induction s with
    | nil => rfl
    | cons a as ih =>
      have : a :: as = [a] ++ as := rfl
      rw [this, escHtmlRun_append, escHtmlRun_single, ih]
      simp
  · show escAttrRun s = (s.map escAttrChar).flatten
    induction s with
    | nil => rfl
    | cons a as ih =>
      have : a :: as = [a] ++ as := rfl
      rw [this, escAttrRun_append, escAttrRun_single, ih]
      simp

/-! ## Claim C5 -/

theorem entMatches_truthy (id e : JsVal) (h : entMatches id e = true) :
    jsTruthy e = true := by
  cases e <;> simp_all [entMatches, getProp, jsTruthy]

theorem findFirstMatch {α : Type} (p : α → Bool) (pre post : List α) (e : α)
    (he : p e = true) (hpre : ∀ x ∈ pre, p x = false) :
    (pre ++ e :: post).find? p = some e := by
  induction pre with
  | nil => simp [List.find?_cons, he]
  | cons a as ih =>
    have ha : p a = false := hpre a (List.mem_cons_self a as)
    simp only [List.cons_append, List.find?_cons, ha]
    exact ih (fun x hx => hpre x (List.mem_cons_of_mem a hx))

/-- The entry search list actually scanned by `resolveEntry` when `items`
is the array `l` and `includes.Entry` is the array `m`: `l ++ m`. -/
theorem resolveEntry_list (id inc : JsVal) (l m : List JsVal)
    (hinc : jsTruthy inc = true) (hentry : getProp inc ("Entry") = .arr m) :
    resolveEntry id inc (.arr l) =
      jsOr (match (l ++ m).find? (entMatches id) with
        | some e => e
        | none => .undefined) (.null) := by
  unfold resolveEntry
  simp only [jsAnd]
  rw [hinc, hentry]
  simp [jsOr, jsTruthy]

/-- Claim C5: `resolveEntry` returns the first entity in the concatenation
`items ++ includes.Entry` whose `sys.id` strictly equals `id` (so an entity
from `items` wins over one with the same id in `includes`), and returns
`null` exactly when no entity in either pool matches. -/
theorem c5_resolveEntry_first_match (id inc : JsVal) (l m : List JsVal)
    (hinc : jsTruthy inc = true) (hentry : getProp inc ("Entry") = .arr m) :
    (resolveEntry id inc (.arr l) = .null ↔
      ∀ e ∈ l ++ m, entMatches id e = false) ∧
    (∀ (pre post : List JsVal) (e : JsVal),
      l ++ m = pre ++ e :: post → entMatches id e = true →
      (∀ x ∈ pre, entMatches id x = false) →
      resolveEntry id inc (.arr l) = e) := by
  rw [resolveEntry_list id inc l m hinc hentry]
  constructor
  · cases hf : (l ++ m).find? (entMatches id) with
    | none =>
      simp only [hf]
      constructor
      · intro _ e he
        have := List.find?_eq_none.mp hf e he
        simpa using this
      · intro _; rfl
    | some e =>
      have hmatch : entMatches id e = true := List.find?_some hf
      have hmem : e ∈ l ++ m := List.mem_of_find?_eq_some hf
      have htr : jsTruthy e = true := entMatches_truthy id e hmatch
      simp only [hf]
      constructor
      · intro hnull
        rw [jsOr, if_pos htr] at hnull
        subst hnull
        simp [jsTruthy] at htr
      · intro hall
        have := hall e hmem
        rw [hmatch] at this
        cases this
  · intro pre post e hdecomp hm hpre
    rw [hdecomp, findFirstMatch (entMatches id) pre post e hm hpre]
    exact (if_pos (entMatches_truthy id e hm))

/-- Witness for claim C5: the same id `dup` occurs both in `items` and in
`includes.Entry`; the `items` entity wins. -/
theorem c5_resolveEntry_first_match_witness :
    resolveEntry (.str (("dup").toList))
      (.obj [(("Entry"),
        .arr [.obj [(("sys"), .obj [(("id"), .str (("dup").toList))]),
                    (("src"), .str (("includes").toList))]])])
      (.arr [.obj [(("sys"), .obj [(("id"), .str (("dup").toList))]),
                   (("src"), .str (("items").toList))]]) =
      .obj [(("sys"), .obj [(("id"), .str (("dup").toList))]),
            (("src"), .str (("items").toList))] := by
  have h := c5_resolveEntry_first_match (.str (("dup").toList))
    (.obj [(("Entry"),
      .arr [.obj [(("sys"), .obj [(("id"), .str (("dup").toList))]),
                  (("src"), .str (("includes").toList))]])])
    [.obj [(("sys"), .obj [(("id"), .str (("dup").toList))]),
           (("src"), .str (("items").toList))]]
    [.obj [(("sys"), .obj [(("id"), .str (("dup").toList))]),
           (("src"), .str (("includes").toList))]]
    rfl rfl
  exact h.2 []
    [.obj [(("sys"), .obj [(("id"), .str (("dup").toList))]),
           (("src"), .str (("includes").toList))]]
    _ rfl (by decide) (fun x hx => absurd hx (List.not_mem_nil x))

/-! ## Claim C6 -/

/-- Claim C6: `richTextToHtml` never throws — its result is always either
the successful render or the empty string — and in particular whenever the
underlying `documentToHtmlString` call throws, the whole document render is
the empty string. -/
theorem c6_richTextToHtml_never_throws (ext : ExtRenderer) (env : Env)
    (self : RTRef) (doc includes items : JsVal) :
    (∀ er : Unit, ext doc (mkRenderOptions env includes items self) = .error er →
      richTextToHtmlF ext env self doc includes items = []) ∧
    (richTextToHtmlF ext env self doc includes items = [] ∨
      ∃ s, ext doc (mkRenderOptions env includes items self) = .ok s ∧
        richTextToHtmlF ext env self doc includes items = s) := by
  unfold richTextToHtmlF
  cases h1 : jsTruthy doc with
  | false => simp [h1]
  | true =>
    cases h2 : jsTruthy (getProp doc ("content")) with
    | false => simp [h1, h2]
    | true =>
      cases h : ext doc (mkRenderOptions env includes items self) with
      | ok s =>
        constructor
        · intro er he
          cases he
        · right
          exact ⟨s, rfl, by simp [h1, h2]⟩
      | error e =>
        constructor
        · intro er _
          simp [h1, h2]
        · left
          simp [h1, h2]

/-- Witness for claim C6: a throwing external renderer on a well-formed
document yields the empty string. -/
theorem c6_richTextToHtml_never_throws_witness :
    richTextToHtmlF (fun _ _ => .error ()) ⟨none, none⟩ (fun _ _ _ => [])
      (.obj [(("content"), .arr [])]) (.obj []) (.arr []) = [] :=
  (c6_richTextToHtml_never_throws (fun _ _ => .error ()) ⟨none, none⟩
    (fun _ _ _ => []) (.obj [(("content"), .arr [])]) (.obj []) (.arr [])).1 () rfl

/-! ## Claim C7 -/

theorem renderEmbeddedEntry_unknown (env : Env) (entry includes items : JsVal)
    (ref : RTRef) (h1 : ctLower entry ≠ ctaTypeIdOf env)
    (h2 : ctLower entry ≠ blockTypeIdOf env) :
    renderEmbeddedEntry env entry includes items ref = [] := by
  unfold renderEmbeddedEntry
  cases ht : jsTruthy entry with
  | false => simp [ht]
  | true =>
    cases hf : jsTruthy (getProp entry ("fields")) with
    | false => simp [ht, hf]
    | true => simp [ht, hf, h1, h2]

/-- Claim C7: a resolved entity whose lower-cased declared content-type tag
matches neither the configured CTA-block type nor the configured
rich-content-block type renders to the empty string, and a document
containing such an embedded-entry node renders exactly to the renders of
its sibling nodes (the unknown node contributes nothing). -/
theorem c7_unknown_block_type_drops :
    (∀ (env : Env) (entry includes items : JsVal) (ref : RTRef),
      ctLower entry ≠ ctaTypeIdOf env → ctLower entry ≠ blockTypeIdOf env →
      renderEmbeddedEntry env entry includes items ref = []) ∧
    (∀ (env : Env) (self : RTRef) (includes items bad : JsVal)
      (ns1 ns2 : List JsVal) (rest : List (String × JsVal)),
      getProp bad ("nodeType") = .str (("embedded-entry-block").toList) →
      ctLower (resolveEmbeddedEntry bad includes items) ≠ ctaTypeIdOf env →
      ctLower (resolveEmbeddedEntry bad includes items) ≠ blockTypeIdOf env →
      richTextToHtmlF extModel env self
          (.obj ((("content"), .arr (ns1 ++ bad :: ns2)) :: rest)) includes items =
        (ns1.map (renderNodeModel (mkRenderOptions env includes items self))).flatten ++
        (ns2.map (renderNodeModel (mkRenderOptions env includes items self))).flatten) := by
  constructor
  · intro env entry includes items ref h1 h2
    exact renderEmbeddedEntry_unknown env entry includes items ref h1 h2
  · intro env self includes items bad ns1 ns2 rest hnt hc1 hc2
    have hdoc : getProp (.obj ((("content"), .arr (ns1 ++ bad :: ns2)) :: rest))
        ("content") = .arr (ns1 ++ bad :: ns2) := by
      simp [getProp, List.lookup]
    have hbad : renderNodeModel (mkRenderOptions env includes items self) bad = [] := by
      unfold renderNodeModel
      rw [hnt]
      simp only [if_pos rfl]
      show renderEmbeddedEntry env (resolveEmbeddedEntry bad includes items)
        includes items self = []
      exact renderEmbeddedEntry_unknown env _ includes items self hc1 hc2
    unfold richTextToHtmlF
    rw [hdoc]
    simp only [jsTruthy, Bool.not_true, Bool.false_eq_true, if_false]
    unfold extModel
    unfold documentToHtmlStringModel
    rw [hdoc]
    simp [List.map_append, hbad]

/-- A concrete entity with the unrecognized content-type tag
`mysteryBlock`, present in the includes pool under id `u1`. -/
def unknownEntity : JsVal :=
  .obj [(("sys"), .obj [(("id"), .str (("u1").toList)),
          (("contentType"), .obj [(("sys"),
            .obj [(("id"), .str (("mysteryBlock").toList))])])]),
        (("fields"), .obj [(("title"), .str (("x").toList))])]

/-- A concrete embedded-entry-block node linking to `u1`. -/
def unknownEntryNode : JsVal :=
  .obj [(("nodeType"), .str (("embedded-entry-block").toList)),
        (("data"), .obj [(("target"), .obj [(("sys"),
          .obj [(("id"), .str (("u1").toList)),
                (("linkType"), .str (("Entry").toList)),
                (("type"), .str (("Link").toList))])])])]

/-- A concrete paragraph node with a single text child. -/
def paraNode (s : JStr) : JsVal :=
  .obj [(("nodeType"), .str (("paragraph").toList)),
        (("content"), .arr [.obj [(("nodeType"), .str (("text").toList)),
          (("value"), .str s)]])]

/-- Witness for claim C7: a document holding a paragraph, an embedded entry
of unrecognized type, and another paragraph renders to exactly the two
paragraphs. -/
theorem c7_unknown_block_type_drops_witness :
    richTextToHtmlF extModel ⟨none, none⟩ (fun _ _ _ => [])
      (.obj [(("content"),
        .arr [paraNode (("Hello").toList), unknownEntryNode, paraNode (("Bye").toList)])])
      (.obj [(("Entry"), .arr [unknownEntity])]) (.arr []) =
      ("<p>Hello</p><p>Bye</p>").toList := by
  have h := c7_unknown_block_type_drops.2 ⟨none, none⟩ (fun _ _ _ => [])
    (.obj [(("Entry"), .arr [unknownEntity])]) (.arr []) unknownEntryNode
    [paraNode (("Hello").toList)] [paraNode (("Bye").toList)] []
    rfl (by decide) (by decide)
  exact h.trans (by decide)

/-! ## Claims C2 and C10 -/

/-- The exact shape of every rendered CTA fragment: because the button URL
and label alias chains end in the truthy literals `'#'` and `'Learn more'`,
the anchor is appended unconditionally, while heading and description are
conditional on their (aliased) fields. -/
theorem renderEmbeddedEntry_cta_shape (env : Env) (entry includes items : JsVal)
    (ref : RTRef) (he : jsTruthy entry = true)
    (hf : jsTruthy (getProp entry ("fields")) = true)
    (hct : ctLower entry = ctaTypeIdOf env) :
    renderEmbeddedEntry env entry includes items ref =
      ("<div class=\"content-block content-block--cta\">").toList ++
      ((if jsTruthy (ctaHeading (getProp entry ("fields"))) then
          ("<h3 class=\"cta-block-heading\">").toList ++
            escapeHtml (ctaHeading (getProp entry ("fields"))) ++ ("</h3>").toList
        else []) ++
       (if jsTruthy (ctaDesc (getProp entry ("fields"))) then
          ("<p class=\"cta-block-desc\">").toList ++
            escapeHtml (ctaDesc (getProp entry ("fields"))) ++ ("</p>").toList
        else []) ++
       (("<a href=\"").toList ++ escapeAttr (ctaUrl (getProp entry ("fields"))) ++
         ("\" class=\"cta-btn\">").toList ++
         escapeHtml (ctaBtn (getProp entry ("fields"))) ++ ("</a>").toList)) ++
      ("</div>").toList := by
  have hurl : jsTruthy (ctaUrl (getProp entry ("fields"))) = true :=
    jsOr_truthy _ _ (jsOr_truthy _ _ (jsOr_truthy _ _ (jsOr_truthy _ _ (by decide))))
  have hbtn : jsTruthy (ctaBtn (getProp entry ("fields"))) = true :=
    jsOr_truthy _ _ (jsOr_truthy _ _ (jsOr_truthy _ _ (by decide)))
  have hbody : ctaBody (getProp entry ("fields")) =
      (if jsTruthy (ctaHeading (getProp entry ("fields"))) then
          ("<h3 class=\"cta-block-heading\">").toList ++
            escapeHtml (ctaHeading (getProp entry ("fields"))) ++ ("</h3>").toList
        else []) ++
      (if jsTruthy (ctaDesc (getProp entry ("fields"))) then
          ("<p class=\"cta-block-desc\">").toList ++
            escapeHtml (ctaDesc (getProp entry ("fields"))) ++ ("</p>").toList
        else []) ++
      (("<a href=\"").toList ++ escapeAttr (ctaUrl (getProp entry ("fields"))) ++
        ("\" class=\"cta-btn\">").toList ++
        escapeHtml (ctaBtn (getProp entry ("fields"))) ++ ("</a>").toList) := by
    unfold ctaBody
    rw [hurl, hbtn]
    simp
  have hne : ctaBody (getProp entry ("fields")) ≠ [] := by
    rw [hbody]
    intro hc
    rcases List.append_eq_nil.mp hc with ⟨-, h2⟩
    rcases List.append_eq_nil.mp h2 with ⟨h3, -⟩
    rcases List.append_eq_nil.mp h3 with ⟨h4, -⟩
    rcases List.append_eq_nil.mp h4 with ⟨h5, -⟩
    rcases List.append_eq_nil.mp h5 with ⟨h6, -⟩
    exact absurd h6 (by decide)
  unfold renderEmbeddedEntry
  simp only [he, hf, Bool.not_true, Bool.false_eq_true, if_false]
  rw [hct]
  simp only [if_pos rfl]
  unfold renderCtaBlock
  rw [if_pos hne, hbody]
  simp

/-- Whether `needle` occurs as a contiguous substring of `hay`. -/
def isSubList (needle : JStr) : JStr → Bool
  | [] => needle.isEmpty
  | c :: rest => needle.isPrefixOf (c :: rest) || isSubList needle rest

/-- A concrete CTA entity with only `heading` and `description` set (no
button URL or label under any alias). -/
def ctaNoButtonEntity : JsVal :=
  .obj [(("sys"), .obj [(("contentType"), .obj [(("sys"),
          .obj [(("id"), .str (("ctaBlock").toList))])])]),
        (("fields"), .obj [(("heading"), .str (("Talk to us").toList)),
          (("description"), .str (("Soon").toList))])]

/-- Claim C2, counterexample: a CTA entity with neither a button URL nor a
button label still renders an anchor element (`<a href="#"
class="cta-btn">Learn more</a>`), so the anchor is NOT omitted when both
are missing. -/
theorem c2_counterexample :
    isSubList (("<a href=").toList)
      (renderEmbeddedEntry ⟨none, none⟩ ctaNoButtonEntity (.obj []) (.arr [])
        (fun _ _ _ => [])) = true ∧
    renderEmbeddedEntry ⟨none, none⟩ ctaNoButtonEntity (.obj []) (.arr [])
        (fun _ _ _ => []) =
      (String.toList ("<div class=\"content-block content-block--cta\">" ++
        "<h3 class=\"cta-block-heading\">Talk to us</h3>" ++
        "<p class=\"cta-block-desc\">Soon</p>" ++
        "<a href=\"#\" class=\"cta-btn\">Learn more</a></div>")) := by
  exact ⟨by decide, by decide⟩

/-- Claim C2 (amended): for every entity classified as a CTA block (fields
present), the fragment always contains exactly the anchor element — the URL
and label fall back to `'#'` and `'Learn more'` when their aliases are
missing — while heading and description are still emitted exactly when
present. -/
theorem c2_cta_fragment_shape (env : Env) (entry includes items : JsVal)
    (ref : RTRef) (he : jsTruthy entry = true)
    (hf : jsTruthy (getProp entry ("fields")) = true)
    (hct : ctLower entry = ctaTypeIdOf env) :
    renderEmbeddedEntry env entry includes items ref =
      ("<div class=\"content-block content-block--cta\">").toList ++
      ((if jsTruthy (ctaHeading (getProp entry ("fields"))) then
          ("<h3 class=\"cta-block-heading\">").toList ++
            escapeHtml (ctaHeading (getProp entry ("fields"))) ++ ("</h3>").toList
        else []) ++
       (if jsTruthy (ctaDesc (getProp entry ("fields"))) then
          ("<p class=\"cta-block-desc\">").toList ++
            escapeHtml (ctaDesc (getProp entry ("fields"))) ++ ("</p>").toList
        else []) ++
       (("<a href=\"").toList ++ escapeAttr (ctaUrl (getProp entry ("fields"))) ++
         ("\" class=\"cta-btn\">").toList ++
         escapeHtml (ctaBtn (getProp entry ("fields"))) ++ ("</a>").toList)) ++
      ("</div>").toList :=
  renderEmbeddedEntry_cta_shape env entry includes items ref he hf hct

/-- Witness for claim C2 at the concrete heading/description-only CTA
entity. -/
theorem c2_cta_fragment_shape_witness :
    renderEmbeddedEntry ⟨none, none⟩ ctaNoButtonEntity (.obj []) (.arr [])
        (fun _ _ _ => []) =
      ("<div class=\"content-block content-block--cta\">").toList ++
      ((if jsTruthy (ctaHeading (getProp ctaNoButtonEntity ("fields"))) then
          ("<h3 class=\"cta-block-heading\">").toList ++
            escapeHtml (ctaHeading (getProp ctaNoButtonEntity ("fields"))) ++ ("</h3>").toList
        else []) ++
       (if jsTruthy (ctaDesc (getProp ctaNoButtonEntity ("fields"))) then
          ("<p class=\"cta-block-desc\">").toList ++
            escapeHtml (ctaDesc (getProp ctaNoButtonEntity ("fields"))) ++ ("</p>").toList
        else []) ++
       (("<a href=\"").toList ++ escapeAttr (ctaUrl (getProp ctaNoButtonEntity ("fields"))) ++
         ("\" class=\"cta-btn\">").toList ++
         escapeHtml (ctaBtn (getProp ctaNoButtonEntity ("fields"))) ++ ("</a>").toList)) ++
      ("</div>").toList :=
  c2_cta_fragment_shape ⟨none, none⟩ ctaNoButtonEntity (.obj []) (.arr [])
    (fun _ _ _ => []) rfl rfl rfl

/-- Claim C10: in the CTA branch, when all button-label aliases
(`buttonText`, `button_label`, `ctaText`) are absent the label defaults to
`Learn more`, when all button-URL aliases (`buttonUrl`, `button_url`,
`ctaUrl`, `link`) are absent the href defaults to `#`, and the fragment
contains the anchor element. -/
theorem c10_cta_defaults (env : Env) (entry includes items : JsVal) (ref : RTRef)
    (he : jsTruthy entry = true)
    (hf : jsTruthy (getProp entry ("fields")) = true)
    (hct : ctLower entry = ctaTypeIdOf env)
    (hb1 : getProp (getProp entry ("fields")) ("buttonText") = .undefined)
    (hb2 : getProp (getProp entry ("fields")) ("button_label") = .undefined)
    (hb3 : getProp (getProp entry ("fields")) ("ctaText") = .undefined)
    (hu1 : getProp (getProp entry ("fields")) ("buttonUrl") = .undefined)
    (hu2 : getProp (getProp entry ("fields")) ("button_url") = .undefined)
    (hu3 : getProp (getProp entry ("fields")) ("ctaUrl") = .undefined)
    (hu4 : getProp (getProp entry ("fields")) ("link") = .undefined) :
    ctaBtn (getProp entry ("fields")) = .str (("Learn more").toList) ∧
    ctaUrl (getProp entry ("fields")) = .str (("#").toList) ∧
    (("<a href=\"#\" class=\"cta-btn\">Learn more</a>").toList) <:+:
      renderEmbeddedEntry env entry includes items ref := by
  have hb : ctaBtn (getProp entry ("fields")) = .str (("Learn more").toList) := by
    unfold ctaBtn
    rw [hb1, hb2, hb3]
    rfl
  have hu : ctaUrl (getProp entry ("fields")) = .str (("#").toList) := by
    unfold ctaUrl
    rw [hu1, hu2, hu3, hu4]
    rfl
  refine ⟨hb, hu, ?_⟩
  have hshape := renderEmbeddedEntry_cta_shape env entry includes items ref he hf hct
  rw [hb, hu] at hshape
  have e1 : escapeAttr (.str (("#").toList)) = ("#").toList := by decide
  have e2 : escapeHtml (.str (("Learn more").toList)) = ("Learn more").toList := by decide
  rw [e1, e2] at hshape
  rw [hshape]
  refine ⟨("<div class=\"content-block content-block--cta\">").toList ++
    ((if jsTruthy (ctaHeading (getProp entry ("fields"))) then
        ("<h3 class=\"cta-block-heading\">").toList ++
          escapeHtml (ctaHeading (getProp entry ("fields"))) ++ ("</h3>").toList
      else []) ++
     (if jsTruthy (ctaDesc (getProp entry ("fields"))) then
        ("<p class=\"cta-block-desc\">").toList ++
          escapeHtml (ctaDesc (getProp entry ("fields"))) ++ ("</p>").toList
      else [])),
    ("</div>").toList, ?_⟩
  have hanchor : (("<a href=\"#\" class=\"cta-btn\">Learn more</a>").toList) =
      ("<a href=\"").toList ++ ("#").toList ++ ("\" class=\"cta-btn\">").toList ++
        ("Learn more").toList ++ ("</a>").toList := by decide
  rw [hanchor]
  simp [List.append_assoc]

/-- Witness for claim C10 at the concrete heading/description-only CTA
entity: label and URL default, and the anchor occurs in the fragment. -/
theorem c10_cta_defaults_witness :
    ctaBtn (getProp ctaNoButtonEntity ("fields")) = .str (("Learn more").toList) ∧
    ctaUrl (getProp ctaNoButtonEntity ("fields")) = .str (("#").toList) ∧
    (("<a href=\"#\" class=\"cta-btn\">Learn more</a>").toList) <:+:
      renderEmbeddedEntry ⟨none, none⟩ ctaNoButtonEntity (.obj []) (.arr [])
        (fun _ _ _ => []) :=
  c10_cta_defaults ⟨none, none⟩ ctaNoButtonEntity (.obj []) (.arr [])
    (fun _ _ _ => []) rfl rfl rfl rfl rfl rfl rfl rfl rfl rfl

/-! ## Claim C4 -/

/-- The invariant relating the source scanner state (left) to the
claim-worded scanner state (right): questions coincide, emitted pairs
coincide up to trimming, and answer parts coincide while a pair with a
non-empty question is open.  (The source does not accumulate answer parts
under an empty-question heading, but such a pair is never emitted by either
scanner.) -/
def faqRel (a b : FaqSt) : Prop :=
  a.q = b.q ∧
  a.pairs = b.pairs.map trimPair ∧
  (∀ q, b.q = some q → q ≠ [] → a.parts = b.parts) ∧
  ((b.q = none ∨ b.q = some []) → a.parts = [])

theorem faqRel_flush : ∀ a b : FaqSt, faqRel a b →
    (flushPair a).pairs = ((flushPairSpec b).pairs).map trimPair := by
  rintro ⟨aq, aparts, apairs⟩ ⟨bq, bparts, bpairs⟩ ⟨hq, hpairs, hparts, hempty⟩
  dsimp only at hq hpairs hparts hempty
  subst hq
  unfold flushPair flushPairSpec
  dsimp only
  cases aq with
  | none => simpa using hpairs
  | some q =>
    by_cases hqe : q = []
    · subst hqe
      simpa using hpairs
    · have hap : aparts = bparts := hparts q rfl hqe
      by_cases hpe : bparts = []
      · simp [hqe, hpe, hap, hpairs]
      · simp [hqe, hpe, hap, hpairs, trimPair]

theorem faqRel_step : ∀ (a b : FaqSt) (n : RNode), faqRel a b →
    faqRel (faqStep a n) (faqStepSpec b n) := by
  rintro ⟨aq, aparts, apairs⟩ ⟨bq, bparts, bpairs⟩ n ⟨hq, hpairs, hparts, hempty⟩
  dsimp only at hq hpairs hparts hempty
  subst hq
  unfold faqStep faqStepSpec
  by_cases hh : n.nodeType ∈ headingTypes
  · simp only [hh, if_true]
    refine ⟨rfl, ?_, ?_, ?_⟩
    · exact faqRel_flush ⟨aq, aparts, apairs⟩ ⟨aq, bparts, bpairs⟩
        ⟨rfl, hpairs, hparts, hempty⟩
    · intro q _ _
      rfl
    · intro _
      rfl
  · by_cases hp : n.nodeType = "paragraph" ∨ n.nodeType = "unordered-list" ∨
        n.nodeType = "ordered-list"
    · simp only [hh, hp, if_false, if_true]
      cases aq with
      | none => exact ⟨rfl, hpairs, hparts, hempty⟩
      | some q =>
        by_cases hqe : q = []
        · subst hqe
          dsimp only
          simp only [ne_eq, not_true_eq_false, if_false]
          refine ⟨rfl, hpairs, ?_, ?_⟩
          · intro q' hq' hq'ne
            injection hq' with h
            exact absurd h.symm hq'ne
          · intro _
            exact hempty (Or.inr rfl)
        · have hap : aparts = bparts := hparts q rfl hqe
          dsimp only
          simp only [ne_eq, hqe, not_false_eq_true, if_true]
          refine ⟨rfl, hpairs, ?_, ?_⟩
          · intro q' hq' _
            rw [hap]
          · rintro (h | h)
            · exact Option.noConfusion h
            · injection h with h'
              exact absurd h' hqe
    · simp only [hh, hp, if_false]
      exact ⟨rfl, hpairs, hparts, hempty⟩

theorem faqRel_foldl : ∀ (ns : List RNode) (a b : FaqSt), faqRel a b →
    faqRel (ns.foldl faqStep a) (ns.foldl faqStepSpec b) := by
  intro ns
  induction ns with
  | nil => exact fun a b h => h
  | cons n rest ih => exact fun a b h => ih _ _ (faqRel_step a b n h)

/-- Claim C4, counterexample: on the document
`[heading2(" "), paragraph("A")]` the source emits the pair
`{question: "", answer: "A"}` — a pair whose question is empty (the
heading's flattened text is trimmed before being stored), so the scan does
not match the claim's wording, which would emit `{question: " ", ...}` and
never a pair with an empty question. -/
theorem c4_counterexample :
    extractFaqPairs (some [RNode.mk ("heading-2") [] [RNode.mk ("text") ((" ").toList) []],
        RNode.mk ("paragraph") [] [RNode.mk ("text") (("A").toList) []]]) =
      [⟨[], ("A").toList⟩] ∧
    extractFaqPairsSpec (some [RNode.mk ("heading-2") [] [RNode.mk ("text") ((" ").toList) []],
        RNode.mk ("paragraph") [] [RNode.mk ("text") (("A").toList) []]]) =
      [⟨(" ").toList, ("A").toList⟩] ∧
    extractFaqPairs (some [RNode.mk ("heading-2") [] [RNode.mk ("text") ((" ").toList) []],
        RNode.mk ("paragraph") [] [RNode.mk ("text") (("A").toList) []]]) ≠
      extractFaqPairsSpec (some [RNode.mk ("heading-2") [] [RNode.mk ("text") ((" ").toList) []],
        RNode.mk ("paragraph") [] [RNode.mk ("text") (("A").toList) []]]) :=
  ⟨by decide, by decide, by decide⟩

/-- Claim C4 (amended): the source scan agrees with the claim's scan except
for trimming — a heading opens a pair, paragraph/list nodes accumulate
space-joined flattened text, a pair is emitted only when the heading's raw
flattened text is non-empty and at least one answer part accumulated, and
the emitted question and answer are additionally trimmed of surrounding
whitespace (so a whitespace-only heading yields a pair with an empty
question). -/
theorem c4_extractFaqPairs_trimmed (doc : Option (List RNode)) :
    extractFaqPairs doc = (extractFaqPairsSpec doc).map trimPair := by
  cases doc with
  | none => rfl
  | some ns =>
    unfold extractFaqPairs extractFaqPairsSpec
    exact faqRel_flush _ _ (faqRel_foldl ns ⟨none, [], []⟩ ⟨none, [], []⟩
      ⟨rfl, rfl, fun q h _ => Option.noConfusion h, fun _ => rfl⟩)
